import Mathlib

/-!
Verification of the mcp-perplexity backend (src/backend/mcp_service.py,
src/backend/request_logger.py, src/backend/perplexity_tools.py) against its
specification, via a shallow embedding in Lean 4.

Modelling conventions:
* Wall-clock time is measured in whole milliseconds (`Nat`); the source's
  float `timeout_sec` and `time.time()` arithmetic are represented at that
  granularity (`duration_ms = int((time.time() - started) * 1000)`).
* The dynamic behaviour of `exec(code, env, env)` is an oracle (`ExecSpec`):
  how long the code would run, what it writes to the redirected stdout/stderr
  buffers by each instant, and how it ends (normal return, raising a
  `TimeoutError` itself, raising another `Exception`, or raising a
  `BaseException` such as `SystemExit` that `except Exception:` does not catch).
* The filesystem is explicit state: an association list from file path to
  content (notes files) or to the decoded JSON record (request-log files).
* Library calls whose innards the repository does not define
  (`datetime.fromisoformat`, the HTTP POST inside `requests.post`,
  and the purely cosmetic `format_csv_response` / `format_json_response`
  success formatting) appear as oracle parameters, so that the repository's
  own control flow around them is verified exactly.
-/

namespace McpPerplexity

/-- Result dictionary built by `py_eval` in src/backend/mcp_service.py
(lines 278-285): keys `ok`, `stdout`, `stderr`, `error`, `duration_ms`,
`csv_path`. -/
structure PyEvalResult where
  ok : Bool
  stdout : String
  stderr : String
  error : Option String
  duration_ms : Nat
  csv_path : String
deriving Repr, DecidableEq

/-- How `exec(code, env, env)` ends when the alarm does not interrupt it.
`raisesTimeoutError` is the executed code itself raising `TimeoutError(msg)`
(caught by the `except TimeoutError` arm); `raisesException` is any other
`Exception`, with `tb` the text `traceback.format_exc()` would produce;
`raisesBaseException` is an exception outside the `Exception` hierarchy
(`SystemExit`, `KeyboardInterrupt`), which no `except` arm of `py_eval`
catches. -/
inductive ExecEnd where
  | completes
  | raisesTimeoutError (msg : String)
  | raisesException (tb : String)
  | raisesBaseException
deriving Repr, DecidableEq

/-- Oracle describing the dynamic behaviour of one `exec` of a code string:
`runtimeMs` is the wall-clock time the code needs to finish on its own,
`outAt t` (resp. `errAt t`) is the text the code has written to the
redirected stdout (resp. stderr) buffer by `t` milliseconds after the start,
and `endState` is how it ends when it is allowed to finish. -/
structure ExecSpec where
  runtimeMs : Nat
  outAt : Nat → String
  errAt : Nat → String
  endState : ExecEnd

/-- Body of `py_eval` (mcp_service.py lines 251-287) up to and including the
construction of the result dictionary.  The guard `posix ∧ timeoutMs <
e.runtimeMs` models `_posix_time_limit` (lines 75-92): on a POSIX platform
with `signal.setitimer`, `SIGALRM` is delivered after `timeout_sec` seconds
and the installed handler raises `TimeoutError("time limit exceeded")`, so
execution is interrupted exactly when the code's own runtime exceeds the
limit; elsewhere the context manager is a no-op and the code runs to its
end.  `none` models a `BaseException` propagating out of `py_eval` to the
caller (neither `except TimeoutError` nor `except Exception` catches it). -/
def pyEvalCore (posix : Bool) (csvPath : String) (timeoutMs : Nat) (e : ExecSpec) :
    Option PyEvalResult :=
  if posix ∧ timeoutMs < e.runtimeMs then
    some { ok := false, stdout := e.outAt timeoutMs, stderr := e.errAt timeoutMs,
           error := some "Timeout: time limit exceeded",
           duration_ms := timeoutMs, csv_path := csvPath }
  else
    match e.endState with
    | ExecEnd.completes =>
        some { ok := true, stdout := e.outAt e.runtimeMs, stderr := e.errAt e.runtimeMs,
               error := none, duration_ms := e.runtimeMs, csv_path := csvPath }
    | ExecEnd.raisesTimeoutError msg =>
        some { ok := false, stdout := e.outAt e.runtimeMs, stderr := e.errAt e.runtimeMs,
               error := some ("Timeout: " ++ msg),
               duration_ms := e.runtimeMs, csv_path := csvPath }
    | ExecEnd.raisesException tb =>
        some { ok := false, stdout := e.outAt e.runtimeMs, stderr := e.errAt e.runtimeMs,
               error := some tb, duration_ms := e.runtimeMs, csv_path := csvPath }
    | ExecEnd.raisesBaseException => none

/-- Values a tool result logged through `log_request` can take, as far as
`_serialize_output` (request_logger.py lines 69-89) distinguishes them:
`None`, a string, a dict (in this backend the only dict-valued result is the
`py_eval` result dictionary), or anything else (logged via `str`). -/
inductive OutputValue where
  | nullv
  | strv (s : String)
  | dictv (r : PyEvalResult)
  | otherv (s : String)
deriving Repr, DecidableEq

/-- Model of `_serialize_output` (request_logger.py lines 69-89): `None` and
dicts pass through unchanged, strings longer than 50000 characters are
truncated with a `[TRUNCATED, total length: n]` marker, anything else is
converted to its string form. -/
def serialize_output : OutputValue → OutputValue
  | OutputValue.nullv => OutputValue.nullv
  | OutputValue.strv s =>
      if s.length > 50000 then
        OutputValue.strv
          (s.take 50000 ++ "\n... [TRUNCATED, total length: " ++ toString s.length ++ "]")
      else OutputValue.strv s
  | OutputValue.dictv r => OutputValue.dictv r
  | OutputValue.otherv s => OutputValue.strv s

/-- Model of the requester sanitisation in `log_request`
(request_logger.py line 41): keep alphanumeric characters and `-`/`_`,
replace everything else by `_` (`str.isalnum` modelled on its ASCII
fragment, which covers every requester the claims use). -/
def sanitizeRequester (r : String) : String :=
  String.mk (r.data.map fun c => if c.isAlphanum || c == '-' || c == '_' then c else '_')

/-- Decoded content of one JSON request-log file, with the fields `log_request`
writes (request_logger.py lines 48-55).  `input_params` keeps the logged
parameters as string key/value pairs. -/
structure LogFileRecord where
  timestamp_ms : Nat
  timestamp_iso : String
  requester : String
  tool_name : String
  input_params : List (String × String)
  output_result : OutputValue
deriving Repr, DecidableEq

/-- Requests directory state: file path paired with the decoded record. -/
abbrev RequestsFS := List (String × LogFileRecord)

/-- Model of `log_request` (request_logger.py lines 17-66).  `writeOk` is
whether the `open`/`json.dump` inside the `try` succeeds; on failure the
exception is logged and swallowed, the directory state is left unchanged,
and the computed file path is still returned. -/
def log_request (requestsDir : String) (timestampMs : Nat) (timestampIso : String)
    (requester toolName : String) (inputParams : List (String × String))
    (outputResult : OutputValue) (writeOk : Bool) (fs : RequestsFS) :
    RequestsFS × String :=
  let safeRequester := sanitizeRequester requester
  let filename := toString timestampMs ++ "-" ++ toolName ++ "-" ++ safeRequester ++ ".json"
  let filepath := requestsDir ++ "/" ++ filename
  let record : LogFileRecord :=
    { timestamp_ms := timestampMs, timestamp_iso := timestampIso,
      requester := requester, tool_name := toolName,
      input_params := inputParams, output_result := serialize_output outputResult }
  if writeOk then ((filepath, record) :: fs, filepath) else (fs, filepath)

/-- Truncation applied to logged string parameters by `py_eval` and
`save_tool_notes` (mcp_service.py lines 294 and 388):
`s[:500] + "..." if len(s) > 500 else s`. -/
def truncateParam (s : String) : String :=
  if s.length > 500 then s.take 500 ++ "..." else s

/-- Model of the whole `py_eval` tool handler (mcp_service.py lines 208-298):
run the code under the platform time limit, build the result dictionary, log
the invocation through `log_request` with the code truncated to 500
characters, and return the result.  The first component is `none` when a
`BaseException` from the executed code propagates out of the handler — in
that case control never reaches `log_request` and the directory state is
unchanged. -/
def py_eval (posix : Bool) (csvPath requestsDir : String)
    (timestampMs : Nat) (timestampIso : String) (writeOk : Bool)
    (requester code : String) (timeoutMs : Nat) (e : ExecSpec) (fs : RequestsFS) :
    Option PyEvalResult × RequestsFS :=
  match pyEvalCore posix csvPath timeoutMs e with
  | none => (none, fs)
  | some r =>
      let logged := log_request requestsDir timestampMs timestampIso requester "py_eval"
        [("code", truncateParam code), ("timeout_sec", toString timeoutMs)]
        (OutputValue.dictv r) writeOk fs
      (some r, logged.1)

/-- Notes directory state (`csv_dir / "tool_notes"`): file name paired with the
file's current text content. -/
abbrev NotesFS := List (String × String)

/-- Content of a file of the notes directory, `none` when the file does not
exist (`notes_file.exists()` in the source). -/
def fsLookup (fs : NotesFS) (name : String) : Option String :=
  (fs.find? fun p => p.1 == name).map Prod.snd

/-- Writing a file: the new content replaces whatever was stored under that
name (both the `'w'` mode and the result of appending in `'a'` mode are
expressed as storing the file's full new text). -/
def fsWrite (fs : NotesFS) (name content : String) : NotesFS :=
  (name, content) :: (fs.filter fun p => !(p.1 == name))

/-- Tool-name sanitisation shared by `save_tool_notes` and `read_tool_notes`
(mcp_service.py lines 360 and 449):
`tool_name.replace("/", "_").replace("\\", "_")`.  Both patterns are single
characters and neither replacement re-introduces the other pattern, so the
two sequential substring replacements are exactly this character map. -/
def sanitizeToolName (t : String) : String :=
  String.mk (t.data.map fun c => if c == '/' || c == '\\' then '_' else c)

/-- Entry appended per save (mcp_service.py line 367):
`f"\n\n---\n**Added:** {timestamp}\n\n{markdown_notes}\n"`. -/
def notesEntry (timestamp markdownNotes : String) : String :=
  "\n\n---\n**Added:** " ++ timestamp ++ "\n\n" ++ markdownNotes ++ "\n"

/-- Model of the `save_tool_notes` tool handler (mcp_service.py lines
309-411).  `timestamp` is `datetime.now().strftime("%Y-%m-%d %H:%M:%S")`.
When the notes file already exists the entry is appended to its content
(mode `'a'`); otherwise the file is created with the header line followed by
the entry (mode `'w'`).  The invocation is then logged through
`log_request`.  File operations on the explicit state cannot fail, so the
`except` branch of the source is not reachable in the model.  Returns the
new notes state, the new requests state and the confirmation string. -/
def save_tool_notes (requestsDir : String) (timestampMs : Nat)
    (timestampIso : String) (writeOk : Bool) (timestamp : String)
    (requester toolName markdownNotes : String) (notes : NotesFS) (reqs : RequestsFS) :
    NotesFS × RequestsFS × String :=
  let safeToolName := sanitizeToolName toolName
  let notesFile := safeToolName ++ ".md"
  let entry := notesEntry timestamp markdownNotes
  let newContent :=
    match fsLookup notes notesFile with
    | some old => old ++ entry
    | none => "# Tool Usage Notes: " ++ toolName ++ "\n" ++ entry
  let notes2 := fsWrite notes notesFile newContent
  let result := "✓ Notes saved successfully\n\nTool: " ++ toolName
      ++ "\nFile: tool_notes/" ++ safeToolName ++ ".md\nTimestamp: " ++ timestamp
  let logged := log_request requestsDir timestampMs timestampIso requester "save_tool_notes"
      [("tool_name", toolName), ("markdown_notes", truncateParam markdownNotes)]
      (OutputValue.strv result) writeOk reqs
  (notes2, logged.1, result)

/-- Model of the `read_tool_notes` tool handler (mcp_service.py lines
414-497): return the full content of the tool's notes file, or the
"No notes found" message when the file does not exist; either way the
invocation is logged through `log_request`. -/
def read_tool_notes (requestsDir : String) (timestampMs : Nat)
    (timestampIso : String) (writeOk : Bool)
    (requester toolName : String) (notes : NotesFS) (reqs : RequestsFS) :
    RequestsFS × String :=
  let safeToolName := sanitizeToolName toolName
  let notesFile := safeToolName ++ ".md"
  match fsLookup notes notesFile with
  | none =>
      let result := "No notes found for tool: " ++ toolName
          ++ "\n\nUse save_tool_notes() to create the first note for this tool."
      let logged := log_request requestsDir timestampMs timestampIso requester "read_tool_notes"
          [("tool_name", toolName)] (OutputValue.strv result) writeOk reqs
      (logged.1, result)
  | some content =>
      let logged := log_request requestsDir timestampMs timestampIso requester "read_tool_notes"
          [("tool_name", toolName)] (OutputValue.strv content) writeOk reqs
      (logged.1, content)

/-- One logged request as `get_request_log` sees it after reading a JSON file
of the requests directory and parsing its `timestamp_iso` field: `ts` is the
parsed timestamp (`datetime.fromisoformat`, modelled on a common millisecond
axis — the ISO strings `log_request` writes are in one fixed format, on
which the lexicographic order used by `sort_values("datetime")` agrees with
the chronological order). -/
structure ReqRecord where
  ts : Nat
  requester : String
  tool_name : String
deriving Repr, DecidableEq

/-- Comparison of request-log rows by time: the order of the sort in
`get_request_log` (mcp_service.py line 577). -/
def tsLE (a b : ReqRecord) : Prop := a.ts ≤ b.ts

instance : DecidableRel tsLE := fun a b => Nat.decLe a.ts b.ts

instance : IsTotal ReqRecord tsLE := ⟨fun a b => Nat.le_total a.ts b.ts⟩

instance : IsTrans ReqRecord tsLE := ⟨fun _ _ _ => Nat.le_trans⟩

/-- Record selection and ordering of `get_request_log` (mcp_service.py lines
545-577): keep the records whose timestamp is `>=` the filter datetime, then
sort ascending by time (pandas `sort_values` is a stable sort; so is
insertion sort). -/
def requestLogRecords (filterTs : Nat) (recs : List ReqRecord) : List ReqRecord :=
  List.insertionSort tsLE (recs.filter fun r => decide (filterTs ≤ r.ts))

/-- Everything observable about one `get_request_log` call: the returned
string, whether a CSV file was written, the rows of that CSV, and the
requests directory afterwards. -/
structure GetRequestLogOutcome where
  response : String
  csvWritten : Bool
  csvRows : List ReqRecord
  reqs : RequestsFS
deriving Repr, DecidableEq

/-- Model of the `get_request_log` tool handler (mcp_service.py lines
504-617).  `parsedSince` is the result of the `datetime.fromisoformat`
parse of `since_datetime` (lines 533-539; the parser is standard-library
code, modelled as an oracle): `none` when the parse raises `ValueError`, in
which case the handler returns the error string at line 543 before reading
any record or writing any CSV.  `recs` are the parsed records of the
requests directory; `fmt` stands for `format_csv_response` applied to the
saved dataframe (purely cosmetic formatting over the written file). -/
def get_request_log (requestsDir : String) (timestampMs : Nat)
    (timestampIso : String) (writeOk : Bool)
    (requester sinceDatetime : String) (parsedSince : Option Nat)
    (recs : List ReqRecord) (fmt : List ReqRecord → String) (reqs : RequestsFS) :
    GetRequestLogOutcome :=
  match parsedSince with
  | none =>
      { response := "✗ Error: Invalid datetime format: " ++ sinceDatetime
          ++ ". Use ISO format like '2024-12-22T00:00:00' or '2024-12-22'",
        csvWritten := false, csvRows := [], reqs := reqs }
  | some filterTs =>
      let rows := requestLogRecords filterTs recs
      let result := fmt rows
      let logged := log_request requestsDir timestampMs timestampIso requester "get_request_log"
          [("since_datetime", sinceDatetime)] (OutputValue.strv result) writeOk reqs
      { response := result, csvWritten := true, csvRows := rows, reqs := logged.1 }

/-- Perplexity API response, as far as the handlers inspect it before handing
it to the formatting code: kept abstract as its raw JSON text. -/
structure ApiResponse where
  raw : String
deriving Repr, DecidableEq

/-- Exceptions `_call_perplexity_api` can raise (perplexity_tools.py lines
30-32): `ValueError` when the API key is missing, `requests.RequestException`
when the HTTP call fails (logged and re-raised at line 67). -/
inductive ApiError where
  | valueError (msg : String)
  | requestException (msg : String)
deriving Repr, DecidableEq

/-- Text `str(e)` produces for a caught `ApiError`. -/
def ApiError.message : ApiError → String
  | ApiError.valueError m => m
  | ApiError.requestException m => m

/-- Message of the `ValueError` raised when the key is absent
(perplexity_tools.py lines 36-39). -/
def apiKeyMissingMsg : String :=
  "PERPLEXITY_API_KEY environment variable is not set. Please set it in your .env.local file."

/-- Model of `_call_perplexity_api` (perplexity_tools.py lines 14-67).
`apiKey` is `os.getenv("PERPLEXITY_API_KEY")` (`none` when unset; the
source's `if not api_key` also treats the empty string as missing).  `net`
is the outcome of the outbound `requests.post` (an oracle: the network is
outside the program).  The `model`, `request` and `reasoningEffort`
arguments only shape the payload of that call. -/
def call_perplexity_api (apiKey : Option String) (model request : String)
    (reasoningEffort : Option String) (net : Except String ApiResponse) :
    Except ApiError ApiResponse :=
  match apiKey with
  | none => Except.error (ApiError.valueError apiKeyMissingMsg)
  | some k =>
      if k = "" then Except.error (ApiError.valueError apiKeyMissingMsg)
      else
        match net with
        | Except.error m => Except.error (ApiError.requestException m)
        | Except.ok r => Except.ok r

/-- Model of the `perplexity_sonar` tool handler (perplexity_tools.py lines
221-272): call the API, save and format the response (`fmt` stands for the
file write plus `format_json_response`); any exception raised inside the
`try` is rendered as `f"✗ Error: {str(e)}"`. -/
def perplexity_sonar (apiKey : Option String) (request : String)
    (net : Except String ApiResponse) (fmt : ApiResponse → String) : String :=
  match call_perplexity_api apiKey "sonar" request none net with
  | Except.error e => "✗ Error: " ++ e.message
  | Except.ok resp => fmt resp

/-- Rejection string of `perplexity_sonar_deep_research` for an invalid
`reasoning_effort` (perplexity_tools.py line 496). -/
def deepResearchEffortError (reasoningEffort : String) : String :=
  "✗ Error: reasoning_effort must be 'low', 'medium', or 'high', got '"
    ++ reasoningEffort ++ "'"

/-- Model of the `perplexity_sonar_deep_research` tool handler
(perplexity_tools.py lines 451-519).  The second component records whether
`_call_perplexity_api` was invoked: the validation at lines 495-496 returns
before any outbound call when `reasoning_effort` is not one of `low`,
`medium`, `high`. -/
def perplexity_sonar_deep_research (apiKey : Option String)
    (request reasoningEffort : String) (net : Except String ApiResponse)
    (fmt : ApiResponse → String) : String × Bool :=
  if reasoningEffort ∉ ["low", "medium", "high"] then
    (deepResearchEffortError reasoningEffort, false)
  else
    match call_perplexity_api apiKey "sonar-deep-research" request (some reasoningEffort) net with
    | Except.error e => ("✗ Error: " ++ e.message, true)
    | Except.ok resp => (fmt resp, true)

/-- Concrete execution behaviour used by witnesses: code that prints
`hello` and completes after 12 ms. -/
def execHello : ExecSpec :=
  { runtimeMs := 12, outAt := fun t => if t < 12 then "" else "hello\n",
    errAt := fun _ => "", endState := ExecEnd.completes }

/-- Concrete execution behaviour used by witnesses: code that prints a line
and then sleeps for a minute. -/
def execSleep : ExecSpec :=
  { runtimeMs := 60000,
    outAt := fun t => if t < 60000 then "started\n" else "started\ndone\n",
    errAt := fun _ => "", endState := ExecEnd.completes }

/-- C1: for every code string whose execution completes without raising and
without hitting the timeout, the dictionary `py_eval` returns has `ok = true`,
`error = none`, and `stdout` (resp. `stderr`) exactly the text the code wrote
to the redirected standard output (resp. standard error) during execution. -/
theorem py_eval_normal_completion (posix : Bool) (csvPath requestsDir : String)
    (timestampMs : Nat) (timestampIso : String) (writeOk : Bool)
    (requester code : String) (timeoutMs : Nat) (e : ExecSpec) (fs : RequestsFS)
    (hend : e.endState = ExecEnd.completes)
    (htime : ¬ (posix ∧ timeoutMs < e.runtimeMs)) :
    (py_eval posix csvPath requestsDir timestampMs timestampIso writeOk
        requester code timeoutMs e fs).1 =
      some { ok := true, stdout := e.outAt e.runtimeMs, stderr := e.errAt e.runtimeMs,
             error := none, duration_ms := e.runtimeMs, csv_path := csvPath } := by
  simp [py_eval, pyEvalCore, if_neg htime, hend]

/-- Witness for C1: a `print("hello")` that completes in 12 ms under a 5000 ms
limit yields `ok`, empty error and exactly the printed text as stdout. -/
theorem py_eval_normal_completion_witness :
    (py_eval true "/data" "/req" 1000 "2024-01-01T00:00:00+00:00" true
        "alice" "print(\"hello\")" 5000 execHello []).1 =
      some { ok := true, stdout := "hello\n", stderr := "", error := none,
             duration_ms := 12, csv_path := "/data" } :=
  py_eval_normal_completion true "/data" "/req" 1000 "2024-01-01T00:00:00+00:00" true
    "alice" "print(\"hello\")" 5000 execHello [] rfl (by decide)

/-- C2: on a POSIX platform (where `signal.setitimer` provides the alarm), a
code string whose execution exceeds the configured limit makes `py_eval`
return `ok = false` with the timeout-indicating error
`"Timeout: time limit exceeded"`, and the reported `duration_ms` equals the
configured limit (the model's idealisation of "close to the timeout": the
alarm fires exactly when the limit elapses).  Moreover the alarm interrupts
execution only in that case: whenever the platform lacks the alarm or the
code finishes within the limit, the run is exactly the run of the
platform without the alarm. -/
theorem py_eval_timeout (csvPath requestsDir : String) (timestampMs : Nat)
    (timestampIso : String) (writeOk : Bool) (requester code : String)
    (timeoutMs : Nat) (e : ExecSpec) (fs : RequestsFS)
    (hexceed : timeoutMs < e.runtimeMs) :
    ((py_eval true csvPath requestsDir timestampMs timestampIso writeOk
        requester code timeoutMs e fs).1 =
      some { ok := false, stdout := e.outAt timeoutMs, stderr := e.errAt timeoutMs,
             error := some "Timeout: time limit exceeded",
             duration_ms := timeoutMs, csv_path := csvPath })
  ∧ (∀ (posix2 : Bool) (t2 : Nat) (e2 : ExecSpec), ¬ (posix2 ∧ t2 < e2.runtimeMs) →
      pyEvalCore posix2 csvPath t2 e2 = pyEvalCore false csvPath t2 e2) := by
  constructor
  · simp [py_eval, pyEvalCore, hexceed]
  · intro posix2 t2 e2 h2
    simp [pyEvalCore, if_neg h2]

/-- Witness for C2: code that needs a minute under a 5000 ms limit on POSIX is
reported as a timeout after 5000 ms, with the output written so far. -/
theorem py_eval_timeout_witness :
    (py_eval true "/data" "/req" 1000 "2024-01-01T00:00:00+00:00" true
        "alice" "import time\ntime.sleep(60)" 5000 execSleep []).1 =
      some { ok := false, stdout := "started\n", stderr := "",
             error := some "Timeout: time limit exceeded",
             duration_ms := 5000, csv_path := "/data" } :=
  (py_eval_timeout "/data" "/req" 1000 "2024-01-01T00:00:00+00:00" true
    "alice" "import time\ntime.sleep(60)" 5000 execSleep [] (by decide)).1

/-- C10: every dictionary `py_eval` returns satisfies `ok = true` iff
`error = none`, and its `stdout`/`stderr` fields hold exactly the text
captured up to the instant execution stopped (completion, timeout or
fault), that instant being the reported `duration_ms`. -/
theorem py_eval_result_invariant (posix : Bool) (csvPath requestsDir : String)
    (timestampMs : Nat) (timestampIso : String) (writeOk : Bool)
    (requester code : String) (timeoutMs : Nat) (e : ExecSpec) (fs : RequestsFS)
    (r : PyEvalResult)
    (h : (py_eval posix csvPath requestsDir timestampMs timestampIso writeOk
        requester code timeoutMs e fs).1 = some r) :
    (r.ok = true ↔ r.error = none)
  ∧ r.stdout = e.outAt r.duration_ms ∧ r.stderr = e.errAt r.duration_ms := by
  have hc : pyEvalCore posix csvPath timeoutMs e = some r := by
    unfold py_eval at h
    rcases hcc : pyEvalCore posix csvPath timeoutMs e with _ | r0 <;> rw [hcc] at h
    · simp at h
    · simp at h
      rw [h]
  unfold pyEvalCore at hc
  by_cases hp : (posix ∧ timeoutMs < e.runtimeMs)
  · rw [if_pos hp] at hc
    cases hc
    simp
  · rw [if_neg hp] at hc
    cases hend : e.endState <;> rw [hend] at hc <;> cases hc <;> simp

/-- Witness for C10: the invariant at the concrete timed-out run. -/
theorem py_eval_result_invariant_witness :
    ((false : Bool) = true ↔ (some "Timeout: time limit exceeded" : Option String) = none)
  ∧ ("started\n" : String) = execSleep.outAt 5000
  ∧ ("" : String) = execSleep.errAt 5000 :=
  py_eval_result_invariant true "/data" "/req" 1000 "2024-01-01T00:00:00+00:00" true
    "alice" "import time\ntime.sleep(60)" 5000 execSleep []
    { ok := false, stdout := "started\n", stderr := "",
      error := some "Timeout: time limit exceeded",
      duration_ms := 5000, csv_path := "/data" } (by decide)

/-- Length of the truncated log parameter when the input exceeds 500
characters: 500 kept characters plus the three-character marker. -/
theorem length_truncateParam (s : String) (h : 500 < s.length) :
    (truncateParam s).length = 503 := by
  have h1 : (s.take 500).length = 500 := by
    rw [String.take_eq]
    show (s.1.take 500).length = 500
    rw [List.length_take]
    have hs : s.1.length = s.length := rfl
    omega
  unfold truncateParam
  rw [if_pos h, String.length_append, h1]
  decide

/-- C6 (amended): for every `py_eval` invocation that returns a result (the
executed code raised no `BaseException`), an audit record is written whose
input parameters hold the code unchanged when it has at most 500 characters
and otherwise its first 500 characters followed by `"..."` — 503 characters
in total, not 500 — and whose output field is the full result dictionary
unmodified (`_serialize_output` passes dicts through). -/
theorem py_eval_audit_record (posix : Bool) (csvPath requestsDir : String)
    (timestampMs : Nat) (timestampIso : String)
    (requester code : String) (timeoutMs : Nat) (e : ExecSpec) (fs : RequestsFS)
    (r : PyEvalResult)
    (h : pyEvalCore posix csvPath timeoutMs e = some r) :
    (py_eval posix csvPath requestsDir timestampMs timestampIso true
        requester code timeoutMs e fs).2 =
      (requestsDir ++ "/" ++ (toString timestampMs ++ "-" ++ "py_eval" ++ "-"
          ++ sanitizeRequester requester ++ ".json"),
        { timestamp_ms := timestampMs, timestamp_iso := timestampIso,
          requester := requester, tool_name := "py_eval",
          input_params := [("code", truncateParam code),
            ("timeout_sec", toString timeoutMs)],
          output_result := OutputValue.dictv r }) :: fs
  ∧ (code.length ≤ 500 → truncateParam code = code)
  ∧ (500 < code.length → truncateParam code = code.take 500 ++ "..."
        ∧ (truncateParam code).length = 503)
  ∧ serialize_output (OutputValue.dictv r) = OutputValue.dictv r := by
  refine ⟨?_, ?_, ?_, rfl⟩
  · simp [py_eval, h, log_request, serialize_output]
  · intro hle
    unfold truncateParam
    rw [if_neg (by omega)]
  · intro hgt
    refine ⟨?_, length_truncateParam code hgt⟩
    unfold truncateParam
    rw [if_pos hgt]

/-- Witness for C6 (amended): the audit record of the concrete `hello` run. -/
theorem py_eval_audit_record_witness :
    (py_eval true "/data" "/req" 1000 "2024-01-01T00:00:00+00:00" true
        "alice" "print(\"hello\")" 5000 execHello []).2 =
      [("/req/1000-py_eval-alice.json",
        { timestamp_ms := 1000, timestamp_iso := "2024-01-01T00:00:00+00:00",
          requester := "alice", tool_name := "py_eval",
          input_params := [("code", "print(\"hello\")"), ("timeout_sec", "5000")],
          output_result := OutputValue.dictv
            { ok := true, stdout := "hello\n", stderr := "", error := none,
              duration_ms := 12, csv_path := "/data" } })] :=
  (py_eval_audit_record true "/data" "/req" 1000 "2024-01-01T00:00:00+00:00"
    "alice" "print(\"hello\")" 5000 execHello []
    { ok := true, stdout := "hello\n", stderr := "", error := none,
      duration_ms := 12, csv_path := "/data" } (by decide)).1

/-- Helper for the C6 counterexample: a 501-character code string. -/
def c6Code : String := String.mk (List.replicate 501 'a')

/-- Helper for the C6 counterexample: its (irrelevant) execution behaviour. -/
def c6Exec : ExecSpec :=
  { runtimeMs := 1, outAt := fun _ => "", errAt := fun _ => "",
    endState := ExecEnd.completes }

/-- C6 counterexample: at a 501-character code string the audit record logs a
503-character code value (`code[:500] + "..."`), so the logged code has
neither at most 500 nor exactly 500 characters. -/
theorem py_eval_audit_truncation_cex :
    ((py_eval false "/data" "/req" 7 "2024-01-01T00:00:00+00:00" true "bob"
        c6Code 5000 c6Exec []).2.head?.map
          fun p => p.2.input_params.head?.map fun q => (q.1, q.2.length)) =
      some (some ("code", 503))
    ∧ c6Code.length = 501 ∧ (503 : Nat) ≠ 500 := by
  have hlen : c6Code.length = 501 := by
    show (List.replicate 501 'a').length = 501
    rw [List.length_replicate]
  have h53 : (truncateParam c6Code).length = 503 := length_truncateParam c6Code (by omega)
  refine ⟨?_, hlen, by decide⟩
  simp [py_eval, pyEvalCore, c6Exec, log_request, serialize_output, h53]

/-- C8: `log_request` never propagates a failure: when the file write fails
the requests directory is left unchanged and the computed file path is still
returned — the same path as on success; and the result a tool returns (here
`py_eval`, whose audit write is exactly such a call) is unaffected by
whether the audit write succeeds. -/
theorem log_request_swallows_failure (requestsDir : String) (timestampMs : Nat)
    (timestampIso requester toolName : String) (inputParams : List (String × String))
    (outputResult : OutputValue) (fs : RequestsFS) :
    (log_request requestsDir timestampMs timestampIso requester toolName inputParams
        outputResult false fs).1 = fs
  ∧ (log_request requestsDir timestampMs timestampIso requester toolName inputParams
        outputResult false fs).2
      = requestsDir ++ "/" ++ (toString timestampMs ++ "-" ++ toolName ++ "-"
          ++ sanitizeRequester requester ++ ".json")
  ∧ (log_request requestsDir timestampMs timestampIso requester toolName inputParams
        outputResult false fs).2
      = (log_request requestsDir timestampMs timestampIso requester toolName inputParams
          outputResult true fs).2
  ∧ ∀ (posix writeOk2 : Bool) (csvPath code : String) (timeoutMs : Nat) (e : ExecSpec),
      (py_eval posix csvPath requestsDir timestampMs timestampIso writeOk2
          requester code timeoutMs e fs).1
        = (py_eval posix csvPath requestsDir timestampMs timestampIso true
            requester code timeoutMs e fs).1 := by
  refine ⟨rfl, rfl, rfl, ?_⟩
  intro posix writeOk2 csvPath code timeoutMs e
  unfold py_eval
  cases pyEvalCore posix csvPath timeoutMs e <;> rfl

/-- Helper for the C7 counterexample: executed code whose exception is a
`BaseException` outside the `Exception` hierarchy. -/
def baseExnExec : ExecSpec :=
  { runtimeMs := 1, outAt := fun _ => "", errAt := fun _ => "",
    endState := ExecEnd.raisesBaseException }

/-- C7 counterexample: executed code that raises `SystemExit` (a
`BaseException`) is caught by neither `except` arm of `py_eval`, so the
handler raises to its caller (modelled by `none`) instead of returning a
value — the claim does not hold for every input. -/
theorem tool_handler_raises_cex :
    (py_eval true "/data" "/req" 7 "2024-01-01T00:00:00+00:00" true "bob"
        "raise SystemExit(0)" 5000 baseExnExec []).1 = none := rfl

/-- C7 (amended): every tool handler returns a value rather than raising for
every fault inside the `Exception` hierarchy — `py_eval` propagates only a
`BaseException` of the executed code; in particular, with the
`PERPLEXITY_API_KEY` configuration absent (unset or empty),
`_call_perplexity_api` raises a `ValueError` that the tool handler catches
and renders as an error string beginning with the error marker. -/
theorem handlers_missing_key (model request : String) (eff : Option String)
    (net : Except String ApiResponse) (fmt : ApiResponse → String) :
    call_perplexity_api none model request eff net
        = Except.error (ApiError.valueError apiKeyMissingMsg)
  ∧ call_perplexity_api (some "") model request eff net
        = Except.error (ApiError.valueError apiKeyMissingMsg)
  ∧ perplexity_sonar none request net fmt = "✗ Error: " ++ apiKeyMissingMsg
  ∧ (∃ rest, perplexity_sonar none request net fmt = "✗ Error" ++ rest)
  ∧ (perplexity_sonar_deep_research none request "medium" net fmt).1
        = "✗ Error: " ++ apiKeyMissingMsg
  ∧ ∀ (posix : Bool) (csvPath requestsDir : String) (timestampMs : Nat)
      (timestampIso : String) (writeOk : Bool) (requester code : String)
      (timeoutMs : Nat) (e : ExecSpec) (fs : RequestsFS),
      e.endState ≠ ExecEnd.raisesBaseException →
      ∃ r, (py_eval posix csvPath requestsDir timestampMs timestampIso writeOk
          requester code timeoutMs e fs).1 = some r := by
  refine ⟨rfl, rfl, rfl, ⟨": " ++ apiKeyMissingMsg, ?_⟩, rfl, ?_⟩
  · rw [← String.append_assoc]
    rfl
  intro posix csvPath requestsDir timestampMs timestampIso writeOk requester code
    timeoutMs e fs hne
  unfold py_eval pyEvalCore
  by_cases hp : (posix ∧ timeoutMs < e.runtimeMs)
  · rw [if_pos hp]
    exact ⟨_, rfl⟩
  · rw [if_neg hp]
    cases hend : e.endState with
    | completes => exact ⟨_, rfl⟩
    | raisesTimeoutError msg => exact ⟨_, rfl⟩
    | raisesException tb => exact ⟨_, rfl⟩
    | raisesBaseException => exact absurd hend hne

/-- Witness for C7 (amended): a concrete run whose code raises no
`BaseException` returns a value. -/
theorem handlers_missing_key_witness :
    ∃ r, (py_eval true "/data" "/req" 7 "2024-01-01T00:00:00+00:00" true "bob"
        "x = 1" 5000 execHello []).1 = some r :=
  (handlers_missing_key "sonar" "q" none (Except.error "down") ApiResponse.raw).2.2.2.2.2
    true "/data" "/req" 7 "2024-01-01T00:00:00+00:00" true "bob" "x = 1" 5000
    execHello [] (by decide)

/-- Looking up a file right after writing it returns the written content. -/
theorem fsLookup_fsWrite_self (fs : NotesFS) (name content : String) :
    fsLookup (fsWrite fs name content) name = some content := by
  simp [fsLookup, fsWrite]

/-- Reading right after saving returns the saved file's full new content:
the previous content (or the fresh header) followed by the new entry. -/
theorem read_after_save (requestsDir : String) (tms tms2 : Nat) (iso iso2 : String)
    (w w2 : Bool) (timestamp requester requester2 toolName markdownNotes : String)
    (notes : NotesFS) (reqs reqs2 : RequestsFS) :
    (read_tool_notes requestsDir tms2 iso2 w2 requester2 toolName
        (save_tool_notes requestsDir tms iso w timestamp requester toolName
          markdownNotes notes reqs).1 reqs2).2
      = (match fsLookup notes (sanitizeToolName toolName ++ ".md") with
          | some old => old
          | none => "# Tool Usage Notes: " ++ toolName ++ "\n")
        ++ notesEntry timestamp markdownNotes := by
  unfold save_tool_notes read_tool_notes
  simp only []
  rw [fsLookup_fsWrite_self]
  cases fsLookup notes (sanitizeToolName toolName ++ ".md") <;> rfl

/-- Decomposition of a notes file's content around the appended entry, giving
the containment of the saved markdown and of the timestamp header. -/
theorem append_notesEntry_decomp (X timestamp markdownNotes : String) :
    X ++ notesEntry timestamp markdownNotes
      = (X ++ ("\n\n---\n**Added:** " ++ timestamp ++ "\n\n")) ++ markdownNotes ++ "\n"
    ∧ X ++ notesEntry timestamp markdownNotes
      = (X ++ "\n\n---\n") ++ ("**Added:** " ++ timestamp)
          ++ ("\n\n" ++ markdownNotes ++ "\n") := by
  have hsplit : ("\n\n---\n**Added:** " : String) = "\n\n---\n" ++ "**Added:** " := rfl
  constructor
  · simp [notesEntry, String.append_assoc]
  · simp only [notesEntry, String.append_assoc]
    rw [hsplit]
    simp only [String.append_assoc]

/-- C3: saving notes and then reading them back for the same tool name yields
content containing the saved markdown and the timestamp header
(`**Added:** {timestamp}`), and a save on an already existing notes file
extends its content purely by appending the new entry — a later save never
removes or overwrites content written by an earlier save. -/
theorem save_then_read_notes (requestsDir : String) (tms tms2 : Nat) (iso iso2 : String)
    (w w2 : Bool) (timestamp requester requester2 toolName markdownNotes : String)
    (notes : NotesFS) (reqs reqs2 : RequestsFS) :
    (∃ a b, (read_tool_notes requestsDir tms2 iso2 w2 requester2 toolName
        (save_tool_notes requestsDir tms iso w timestamp requester toolName
          markdownNotes notes reqs).1 reqs2).2
      = a ++ markdownNotes ++ b)
  ∧ (∃ c d, (read_tool_notes requestsDir tms2 iso2 w2 requester2 toolName
        (save_tool_notes requestsDir tms iso w timestamp requester toolName
          markdownNotes notes reqs).1 reqs2).2
      = c ++ ("**Added:** " ++ timestamp) ++ d)
  ∧ (∀ old, fsLookup notes (sanitizeToolName toolName ++ ".md") = some old →
      fsLookup (save_tool_notes requestsDir tms iso w timestamp requester toolName
          markdownNotes notes reqs).1 (sanitizeToolName toolName ++ ".md")
        = some (old ++ notesEntry timestamp markdownNotes)) := by
  have hread := read_after_save requestsDir tms tms2 iso iso2 w w2 timestamp
    requester requester2 toolName markdownNotes notes reqs reqs2
  refine ⟨?_, ?_, ?_⟩
  · exact ⟨_, _, hread.trans (append_notesEntry_decomp _ timestamp markdownNotes).1⟩
  · exact ⟨_, _, hread.trans (append_notesEntry_decomp _ timestamp markdownNotes).2⟩
  · intro old hold
    unfold save_tool_notes
    simp only []
    rw [hold, fsLookup_fsWrite_self]

/-- Witness for C3: appending a second note to an existing notes file keeps
the earlier content as an untouched prefix. -/
theorem save_then_read_notes_witness :
    fsLookup (save_tool_notes "/req" 1 "iso" true "2024-12-22 10:00:00" "alice"
        "py_eval" "note body" [("py_eval.md", "existing")] []).1 "py_eval.md"
      = some ("existing" ++ notesEntry "2024-12-22 10:00:00" "note body") :=
  (save_then_read_notes "/req" 1 2 "iso" "iso2" true true "2024-12-22 10:00:00"
    "alice" "bob" "py_eval" "note body" [("py_eval.md", "existing")] [] []).2.2
    "existing" rfl

/-- C4: with a parsed filter datetime strictly later than every record's
timestamp the produced CSV has zero records; a record is included iff its
timestamp is greater than or equal to the filter (so a filter at or before
every record keeps all of them), and the rows are sorted ascending by
time. -/
theorem get_request_log_filtering (requestsDir : String) (timestampMs : Nat)
    (timestampIso : String) (writeOk : Bool) (requester sinceDatetime : String)
    (filterTs : Nat) (recs : List ReqRecord) (fmt : List ReqRecord → String)
    (reqs : RequestsFS) :
    ((∀ r ∈ recs, r.ts < filterTs) →
      (get_request_log requestsDir timestampMs timestampIso writeOk requester
        sinceDatetime (some filterTs) recs fmt reqs).csvRows = [])
  ∧ ((∀ r ∈ recs, filterTs ≤ r.ts) →
      List.Perm (get_request_log requestsDir timestampMs timestampIso writeOk requester
        sinceDatetime (some filterTs) recs fmt reqs).csvRows recs)
  ∧ (∀ r, r ∈ (get_request_log requestsDir timestampMs timestampIso writeOk requester
        sinceDatetime (some filterTs) recs fmt reqs).csvRows ↔ r ∈ recs ∧ filterTs ≤ r.ts)
  ∧ List.Sorted tsLE (get_request_log requestsDir timestampMs timestampIso writeOk requester
        sinceDatetime (some filterTs) recs fmt reqs).csvRows := by
  have hrows : (get_request_log requestsDir timestampMs timestampIso writeOk requester
      sinceDatetime (some filterTs) recs fmt reqs).csvRows
    = requestLogRecords filterTs recs := rfl
  refine ⟨?_, ?_, ?_, ?_⟩
  · intro h
    rw [hrows]
    unfold requestLogRecords
    have hnil : recs.filter (fun r => decide (filterTs ≤ r.ts)) = [] := by
      rw [List.filter_eq_nil_iff]
      intro a ha
      simp only [decide_eq_true_eq]
      have := h a ha
      omega
    rw [hnil]
    rfl
  · intro h
    rw [hrows]
    unfold requestLogRecords
    have hall : recs.filter (fun r => decide (filterTs ≤ r.ts)) = recs := by
      rw [List.filter_eq_self]
      intro a ha
      simp only [decide_eq_true_eq]
      exact h a ha
    rw [hall]
    exact List.perm_insertionSort tsLE recs
  · intro r
    rw [hrows]
    unfold requestLogRecords
    rw [(List.perm_insertionSort tsLE _).mem_iff, List.mem_filter]
    simp
  · rw [hrows]
    exact List.sorted_insertionSort tsLE _

/-- Witness for C4: a filter in the future of both records produces an empty
CSV. -/
theorem get_request_log_filtering_witness :
    (get_request_log "/req" 1 "2024-01-01T00:00:00+00:00" true "admin" "2030-01-01"
      (some 100)
      [{ ts := 5, requester := "a", tool_name := "py_eval" },
       { ts := 9, requester := "b", tool_name := "perplexity_sonar" }]
      (fun _ => "csv") []).csvRows = [] :=
  (get_request_log_filtering "/req" 1 "2024-01-01T00:00:00+00:00" true "admin"
    "2030-01-01" 100
    [{ ts := 5, requester := "a", tool_name := "py_eval" },
     { ts := 9, requester := "b", tool_name := "perplexity_sonar" }]
    (fun _ => "csv") []).1 (by decide)

/-- C9: a `since_datetime` string that `datetime.fromisoformat` cannot parse
makes `get_request_log` return the invalid-format error string, with no
exception raised, no CSV file written and no rows produced; the request
state is left untouched (the handler returns before its own audit call). -/
theorem get_request_log_invalid_datetime (requestsDir : String) (timestampMs : Nat)
    (timestampIso : String) (writeOk : Bool) (requester sinceDatetime : String)
    (recs : List ReqRecord) (fmt : List ReqRecord → String) (reqs : RequestsFS) :
    get_request_log requestsDir timestampMs timestampIso writeOk requester
        sinceDatetime none recs fmt reqs =
      { response := "✗ Error: Invalid datetime format: " ++ sinceDatetime
          ++ ". Use ISO format like '2024-12-22T00:00:00' or '2024-12-22'",
        csvWritten := false, csvRows := [], reqs := reqs } := rfl

/-- C5: a deep-research call whose `reasoning_effort` lies outside
{low, medium, high} is rejected with the exact error string from the
validation at the top of the handler, and `_call_perplexity_api` is never
invoked (second component `false`): no outbound network call precedes the
rejection. -/
theorem deep_research_invalid_effort (apiKey : Option String)
    (request reasoningEffort : String) (net : Except String ApiResponse)
    (fmt : ApiResponse → String)
    (h : reasoningEffort ∉ ["low", "medium", "high"]) :
    perplexity_sonar_deep_research apiKey request reasoningEffort net fmt
      = (deepResearchEffortError reasoningEffort, false) := by
  unfold perplexity_sonar_deep_research
  rw [if_pos h]

/-- Witness for C5: `reasoning_effort = "extreme"` is rejected without any
network call, even with a valid key and a healthy network. -/
theorem deep_research_invalid_effort_witness :
    perplexity_sonar_deep_research (some "key") "q" "extreme"
        (Except.ok { raw := "response" }) ApiResponse.raw
      = ("✗ Error: reasoning_effort must be 'low', 'medium', or 'high', got 'extreme'",
         false) :=
  deep_research_invalid_effort (some "key") "q" "extreme"
    (Except.ok { raw := "response" }) ApiResponse.raw (by decide)

end McpPerplexity
